import Mathlib

/-
Shallow embedding of the notizia actor-runtime core:
  - src/notizia/src/core/mailbox.rs   (Mailbox, take-await-restore recv)
  - src/notizia/src/core/errors.rs    (RecvError, SendError)
  - src/notizia/src/core/lifecycle.rs (TerminateReason, ShutdownError)
  - src/notizia/src/task/handle.rs    (TaskHandle: send, join, kill, shutdown)
  - src/notizia/src/macros.rs         (call! protocol)
  - src/notizia_gen/src/lib.rs        (__setup lifecycle driver)

State is passed explicitly; tokio's unbounded mpsc channel is modelled as a
FIFO queue with liveness flags for its two halves; panics are modelled as
Except values carrying the payload; awaits as explicit steps of a Proc type.
-/

namespace Notizia

/-- Errors returned by Mailbox.recv (core/errors.rs, enum RecvError). -/
inductive RecvError
  | Closed
  | Poisoned
  | Timeout
deriving DecidableEq, Repr

/-- Errors returned by send (core/errors.rs, enum SendError); carries the
undelivered message. -/
inductive SendError (α : Type)
  | Disconnected (msg : α)
  | Full (msg : α)
deriving DecidableEq, Repr

/-- Recover the undelivered message (core/errors.rs, SendError::into_inner). -/
def SendError.into_inner {α : Type} : SendError α → α
  | .Disconnected msg => msg
  | .Full msg => msg

/-- Outcome classification of a completed task
(core/lifecycle.rs, enum TerminateReason). -/
inductive TerminateReason
  | Normal
  | Panic (msg : String)
deriving DecidableEq, Repr

/-- Errors of TaskHandle::shutdown (core/lifecycle.rs, enum ShutdownError). -/
inductive ShutdownError
  | Timeout
  | JoinError
deriving DecidableEq, Repr

/-- Errors of the call! protocol; the definition of this enum is not part of
the snapshot, but its three variants are exactly those constructed in
src/notizia/src/macros.rs lines 142-147. -/
inductive CallError
  | SendError
  | Timeout
  | ChannelClosed
deriving DecidableEq, Repr

/-- Where the single receive endpoint of a task's channel currently is:
in the mailbox's guarded slot (slot = Some), taken and held by an in-flight
recv (slot = None, endpoint alive on recv's stack), or not present at all
(slot = None and the receiver half of the channel is gone: never set, or
dropped by recv's early return on closure). -/
inductive EndpointLoc
  | inSlot
  | held
  | dropped
deriving DecidableEq, Repr

/-- Joint state of a task's Mailbox slot and the underlying unbounded mpsc
channel (core/mailbox.rs struct Mailbox plus the tokio channel it wraps):
the channel's pending FIFO queue, whether any sender half is still alive,
and where the receive endpoint is. -/
structure Mailbox (α : Type) where
  queue : List α
  senderAlive : Bool
  endpoint : EndpointLoc
deriving DecidableEq, Repr

/-- Result of one recv activation: finished with a value or error (next
mailbox state attached), or suspended awaiting a message with the endpoint
held out of the slot. -/
inductive RecvOut (α : Type)
  | ok (v : α) (s : Mailbox α)
  | err (e : RecvError) (s : Mailbox α)
  | awaiting (s : Mailbox α)
deriving DecidableEq, Repr

/-- Step 1 of recv (mailbox.rs lines 57-60): lock the slot and take the
endpoint out; none if the slot is empty. -/
def takeReceiver {α : Type} (s : Mailbox α) : Option (Mailbox α) :=
  match s.endpoint with
  | .inSlot => some { s with endpoint := .held }
  | _ => none

/-- Poll of tokio's UnboundedReceiver::recv on the extracted endpoint:
a queued message is popped in FIFO order; an empty queue yields closure
when every sender is gone, otherwise the future is pending. -/
inductive Poll (α : Type)
  | item (v : α) (s : Mailbox α)
  | closed (s : Mailbox α)
  | pending (s : Mailbox α)
deriving DecidableEq, Repr

def receiverRecv {α : Type} (s : Mailbox α) : Poll α :=
  match s.queue with
  | v :: rest => .item v { s with queue := rest }
  | [] => if s.senderAlive then .pending s else .closed s

/-- Step 3 of recv (mailbox.rs line 66): put the endpoint back into the slot. -/
def restoreReceiver {α : Type} (s : Mailbox α) : Mailbox α :=
  { s with endpoint := .inSlot }

/-- Mailbox::recv (mailbox.rs lines 55-69): take the endpoint out of the
guarded slot (Err Poisoned if the slot is empty), await the next value with
no lock held, then restore the endpoint. On channel closure the `?` on
line 63 returns early, so the endpoint is dropped, never restored. -/
def recv {α : Type} (s : Mailbox α) : RecvOut α :=
  match takeReceiver s with
  | none => .err .Poisoned s
  | some s₁ =>
    match receiverRecv s₁ with
    | .item v s₂ => .ok v (restoreReceiver s₂)
    | .closed s₂ => .err .Closed { s₂ with endpoint := .dropped }
    | .pending s₂ => .awaiting s₂

/-- Resumption of an in-flight recv (endpoint held, slot empty) once the
channel state has changed: poll again, restoring the endpoint on success,
dropping it on closure. -/
def recvResume {α : Type} (s : Mailbox α) : RecvOut α :=
  match receiverRecv s with
  | .item v s₂ => .ok v (restoreReceiver s₂)
  | .closed s₂ => .err .Closed { s₂ with endpoint := .dropped }
  | .pending s₂ => .awaiting s₂

/-- UnboundedSender::send as used by TaskHandle::send and TaskRef::send
(handle.rs lines 144-146, reference.rs): succeeds and appends to the FIFO
queue while the receiver half exists, fails with Disconnected carrying the
message once the receiver has been dropped. The channel is unbounded, so no
other failure exists. -/
def send {α : Type} (s : Mailbox α) (m : α) : Except (SendError α) Unit × Mailbox α :=
  match s.endpoint with
  | .dropped => (.error (.Disconnected m), s)
  | _ => (.ok (), { s with queue := s.queue ++ [m] })

/-- Send a whole list of messages from one sender, in order. -/
def sendAll {α : Type} (s : Mailbox α) : List α → Mailbox α
  | [] => s
  | m :: ms => sendAll (send s m).2 ms

/-- Collect the values of up to n consecutive successful recv calls. -/
def drainN {α : Type} (s : Mailbox α) : Nat → List α
  | 0 => []
  | n + 1 =>
    match recv s with
    | .ok v s' => v :: drainN s' n
    | _ => []

/-- A computation with its suspension points (awaits) made explicit. -/
inductive Proc (α : Type)
  | ret (a : α)
  | later (k : Proc α)

/-- Whether the computation reaches any suspension point. -/
def Proc.suspends {α : Type} : Proc α → Bool
  | .ret _ => false
  | .later _ => true

/-- Final value of the computation. -/
def Proc.result {α : Type} : Proc α → α
  | .ret a => a
  | .later k => k.result

/-- TaskHandle::send as a Proc: the body (handle.rs lines 144-146) is a plain
non-async function with no await. -/
def sendP {α : Type} (s : Mailbox α) (m : α) : Proc (Except (SendError α) Unit × Mailbox α) :=
  .ret (send s m)

/-- Mailbox::recv as a Proc: suspends exactly when the queue is empty and the
channel is still open. -/
def recvP {α : Type} (s : Mailbox α) : Proc (RecvOut α) :=
  match recv s with
  | .awaiting s' => .later (.ret (recvResume s'))
  | r => .ret r

/-- Observable side effects performed through a TaskHandle (handle.rs):
whether its sender half has been dropped and whether JoinHandle::abort was
ever called on its join handle. -/
structure HandleState where
  senderDropped : Bool
  abortCalled : Bool
deriving DecidableEq, Repr

/-- TaskHandle::kill (handle.rs lines 174-176): the body is exactly
`self.handle.abort()`. -/
def kill (h : HandleState) : HandleState :=
  { h with abortCalled := true }

/-- TaskHandle::kill as a Proc: a plain non-async function with no await. -/
def killP (h : HandleState) : Proc HandleState :=
  .ret (kill h)

/-- What awaiting the join handle bounded by the shutdown timeout observes:
the task completed with a reason within the deadline, the join itself failed
within the deadline, or the deadline elapsed first. -/
inductive JoinWithin
  | completed (r : TerminateReason)
  | failed
  | stillRunning
deriving DecidableEq, Repr

/-- TaskHandle::shutdown (handle.rs lines 247-269): drop the sender first,
then await the join handle inside tokio::time::timeout. Ok(Ok(reason)) maps
to Ok reason, Ok(Err) to ShutdownError::JoinError, and an elapsed deadline
to ShutdownError::Timeout. The body contains no call to abort; on the
timeout arm the join handle is merely dropped. -/
def shutdown (h : HandleState) (j : JoinWithin) :
    Except ShutdownError TerminateReason × HandleState :=
  let h₁ := { h with senderDropped := true }
  match j with
  | .completed r => (.ok r, h₁)
  | .failed => (.error .JoinError, h₁)
  | .stillRunning => (.error .Timeout, h₁)

/-- A panic payload as inspected by __setup (notizia_gen/src/lib.rs lines
74-80 and 92-98): a &str payload, a String payload, or anything else. -/
inductive PanicPayload
  | str (s : String)
  | string (s : String)
  | other
deriving DecidableEq, Repr

/-- Best-effort extraction of the panic message: the text of a &str or String
payload, otherwise the fixed fallback. -/
def panicMessage : PanicPayload → String
  | .str s => s
  | .string s => s
  | .other => "unknown panic"

/-- Observable outcome of one run of the lifecycle driver. -/
structure SetupRun where
  reason : TerminateReason
  terminateCalledWith : Option TerminateReason
  terminatePanicLogged : Bool
  returned : TerminateReason
deriving DecidableEq, Repr

/-- The lifecycle driver __setup (notizia_gen/src/lib.rs lines 55-105):
run start() under catch_unwind, compute the TerminateReason from its outcome,
invoke terminate(reason) under a second catch_unwind, log a warning if the
hook panicked, and return the reason computed before the hook ran.
startOutcome and terminateOutcome are ok on normal return and error with the
panic payload on a panic. -/
def __setup (startOutcome : Except PanicPayload Unit)
    (terminateOutcome : Except PanicPayload Unit) : SetupRun :=
  let reason :=
    match startOutcome with
    | .ok _ => TerminateReason.Normal
    | .error p => TerminateReason.Panic (panicMessage p)
  { reason := reason
    terminateCalledWith := some reason
    terminatePanicLogged :=
      match terminateOutcome with
      | .ok _ => false
      | .error _ => true
    returned := reason }

/-- TaskHandle::join (handle.rs lines 106-108) on a task that ran to
completion: yields the value the driver future returned. -/
def joinResult (run : SetupRun) : Except Unit TerminateReason :=
  .ok run.returned

/-- The steps of the driver future spawned by Task::run, in program order
(notizia_gen/src/lib.rs lines 59-104). -/
inductive DriverStep
  | bindReceiver
  | runStart
  | computeReason
  | invokeTerminate
  | returnReason
deriving DecidableEq, Repr

def driverOrder : List DriverStep :=
  [.bindReceiver, .runStart, .computeReason, .invokeTerminate, .returnReason]

/-- JoinHandle::abort cancels the spawned future at its current suspension
point: if the first k steps had run when the abort took effect, no further
step of the driver ever runs. -/
def stepsBeforeAbort (k : Nat) : List DriverStep :=
  driverOrder.take k

/-- Arrival behaviour on one call's private oneshot reply channel: the reply
value arrives at time t, the reply sender is dropped at time t without
sending, or neither ever happens. Each call! invocation constructs a fresh
such channel, so one invocation's outcome is a function of its own reply
channel alone. -/
inductive ReplyOutcome (α : Type)
  | replyAt (t : Nat) (v : α)
  | dropAt (t : Nat)
  | never
deriving DecidableEq, Repr

/-- Default deadline of call! in milliseconds (macros.rs lines 154, 167). -/
def DEFAULT_CALL_TIMEOUT_MS : Nat := 5000

/-- tokio::time::timeout(d, rx) around the reply await (macros.rs lines
144-147): the inner await's own outcome wins whenever it lands within the
deadline, and its failure (reply sender dropped) surfaces immediately as
ChannelClosed; only an elapsed deadline yields Timeout. Returns the result
together with the elapsed time at which the call returns. -/
def awaitReplyWithTimeout {α : Type} (d : Nat) (rx : ReplyOutcome α) :
    Except CallError α × Nat :=
  match rx with
  | .replyAt t v => if t ≤ d then (.ok v, t) else (.error .Timeout, d)
  | .dropAt t => if t ≤ d then (.error .ChannelClosed, t) else (.error .Timeout, d)
  | .never => (.error .Timeout, d)

/-- The call! macro body (macros.rs lines 136-149): build the message around
a fresh oneshot reply channel, send it, mapping a send failure to
CallError::SendError synchronously (elapsed time 0, before any await), then
await the reply bounded by the timeout. Returns result, elapsed time, and
the mailbox state of the callee's channel after the send. -/
def call {μ α : Type} (s : Mailbox μ) (msg : μ) (rx : ReplyOutcome α) (d : Nat) :
    Except CallError α × Nat × Mailbox μ :=
  match send s msg with
  | (.error _, s') => (.error .SendError, 0, s')
  | (.ok _, s') =>
    let r := awaitReplyWithTimeout d rx
    (r.1, r.2, s')

/-- call! without an explicit timeout (macros.rs lines 153-155, 166-168):
delegates with the 5000 ms default. -/
def callDefault {μ α : Type} (s : Mailbox μ) (msg : μ) (rx : ReplyOutcome α) :
    Except CallError α × Nat × Mailbox μ :=
  call s msg rx DEFAULT_CALL_TIMEOUT_MS

/-- Helper: sending a list from one sender into a bound mailbox appends it to
the channel queue in order. -/
theorem sendAll_inSlot {α : Type} (ms : List α) : ∀ (q : List α) (sa : Bool),
    sendAll (⟨q, sa, .inSlot⟩ : Mailbox α) ms = ⟨q ++ ms, sa, .inSlot⟩ := by
  induction ms with
  | nil => intro q sa; simp [sendAll]
  | cons m ms ih =>
    intro q sa
    simp only [sendAll, send]
    rw [ih]
    simp

/-- Helper: draining a bound mailbox returns the queued messages in order. -/
theorem drainN_inSlot {α : Type} (q : List α) (sa : Bool) :
    drainN (⟨q, sa, .inSlot⟩ : Mailbox α) q.length = q := by
  induction q with
  | nil => rfl
  | cons v rest ih =>
    simp [drainN, recv, takeReceiver, receiverRecv, restoreReceiver, ih]

/-- C1: recv removes the endpoint from the guarded slot before awaiting — in
every suspended (awaiting) state the endpoint is held out of the slot, so the
slot is None exactly while the receive is in progress — and whenever recv
returns Ok the endpoint has been restored into the slot, so a subsequent recv
can take it again; a message arriving at a suspended receive completes it
with the endpoint restored. The mutual-exclusion lock is elided: it brackets
only the non-suspending take and restore steps, never the await. -/
theorem recv_take_await_restore {α : Type} (s s' : Mailbox α) (m : α) :
    (∀ s₁, recv s = .awaiting s₁ → s₁.endpoint = .held) ∧
    (∀ v s₁, recv s = .ok v s₁ → s₁.endpoint = .inSlot ∧
      takeReceiver s₁ = some { s₁ with endpoint := .held }) ∧
    (recv s = .awaiting s' →
      recvResume (send s' m).2 = .ok m { s' with endpoint := .inSlot }) := by
  obtain ⟨q, sa, ep⟩ := s
  refine ⟨fun s₁ h => ?_, fun v s₁ h => ?_, fun h => ?_⟩ <;>
    cases ep <;> cases q <;> cases sa <;>
      simp_all [recv, takeReceiver, receiverRecv, restoreReceiver, recvResume, send]
  all_goals try obtain ⟨rfl, rfl⟩ := h
  all_goals simp [takeReceiver, recvResume, send, receiverRecv, restoreReceiver]

/-- Witness for C1 at a concrete mailbox: an empty bound mailbox suspends,
and a message delivered to the suspended receive completes it with the
endpoint back in the slot. -/
theorem recv_take_await_restore_witness :
    recv (⟨[], true, .inSlot⟩ : Mailbox Nat) = .awaiting ⟨[], true, .held⟩ ∧
    recvResume (send (⟨[], true, .held⟩ : Mailbox Nat) 7).2 = .ok 7 ⟨[], true, .inSlot⟩ :=
  ⟨rfl, (recv_take_await_restore ⟨[], true, .inSlot⟩ ⟨[], true, .held⟩ 7).2.2 rfl⟩

/-- Counterexample for C2: with a bound endpoint whose channel is closed and
drained, the first recv returns Closed and leaves the endpoint dropped, and a
second recv then returns Poisoned, not Closed. -/
theorem recv_closed_then_poisoned_counterexample :
    recv (⟨[], false, .inSlot⟩ : Mailbox Nat) = .err .Closed ⟨[], false, .dropped⟩ ∧
    recv (⟨[], false, .dropped⟩ : Mailbox Nat) = .err .Poisoned ⟨[], false, .dropped⟩ ∧
    RecvError.Poisoned ≠ RecvError.Closed :=
  ⟨rfl, rfl, by decide⟩

/-- C2 (amended): after the channel closes, recv returns Closed and the
endpoint is dropped, not restored, so a second recv deterministically returns
Poisoned (empty slot) rather than Closed, and in particular does not panic. -/
theorem recv_closed_drops_endpoint {α : Type} (s : Mailbox α)
    (h1 : s.endpoint = .inSlot) (h2 : s.queue = []) (h3 : s.senderAlive = false) :
    recv s = .err .Closed { s with endpoint := .dropped } ∧
    recv { s with endpoint := .dropped } =
      .err .Poisoned { s with endpoint := .dropped } := by
  rcases s with ⟨q, sa, ep⟩
  simp only at h1 h2 h3
  subst h1; subst h2; subst h3
  exact ⟨rfl, rfl⟩

/-- Witness for C2's amended claim at a concrete closed channel. -/
theorem recv_closed_drops_endpoint_witness :
    recv (⟨[], false, .inSlot⟩ : Mailbox Nat) = .err .Closed ⟨[], false, .dropped⟩ ∧
    recv (⟨[], false, .dropped⟩ : Mailbox Nat) = .err .Poisoned ⟨[], false, .dropped⟩ :=
  recv_closed_drops_endpoint (⟨[], false, .inSlot⟩ : Mailbox Nat) rfl rfl rfl

/-- C3: the lifecycle driver always invokes the terminate hook with the
reason computed from start(), the hook runs under its own panic containment
(a hook panic is caught and logged), and the value returned to join and
shutdown is exactly the reason computed before the hook ran, unchanged by
any hook panic. -/
theorem setup_terminate_hook_contained
    (so terminateO : Except PanicPayload Unit) (p : PanicPayload) :
    ((__setup so terminateO).terminateCalledWith = some (__setup so terminateO).reason) ∧
    ((__setup so (.error p)).terminatePanicLogged = true) ∧
    ((__setup so (.error p)).returned = (__setup so terminateO).returned) ∧
    ((__setup so terminateO).returned = (__setup so terminateO).reason) ∧
    (joinResult (__setup so (.error p)) = .ok (__setup so terminateO).reason) :=
  ⟨rfl, rfl, rfl, rfl, rfl⟩

/-- C4: the driver computes Normal exactly when start() returned without
panicking; a string panic payload "X" yields Panic "X" (both &str and String
payloads), an unrecognized payload yields Panic "unknown panic"; and this
same reason is what join and shutdown observe. -/
theorem setup_reason_from_start
    (so terminateO : Except PanicPayload Unit) (msg : String) (h : HandleState) :
    ((__setup so terminateO).reason = .Normal ↔ so = .ok ()) ∧
    ((__setup (.error (.str msg)) terminateO).reason = .Panic msg) ∧
    ((__setup (.error (.string msg)) terminateO).reason = .Panic msg) ∧
    ((__setup (.error .other) terminateO).reason = .Panic "unknown panic") ∧
    (joinResult (__setup so terminateO) = .ok (__setup so terminateO).reason) ∧
    (shutdown h (.completed (__setup so terminateO).returned) =
      (.ok (__setup so terminateO).reason, { h with senderDropped := true })) := by
  refine ⟨?_, rfl, rfl, rfl, rfl, rfl⟩
  cases so with
  | ok u => cases u; simp [__setup]
  | error p => simp [__setup]

/-- C5: call maps outcomes in evaluated priority order: a failed send returns
CallError::SendError synchronously at elapsed time 0, before any await; the
reply await is wrapped inside a timeout (default 5000 ms) whose expiry
returns Timeout; a reply sender dropped at time t within the deadline
returns ChannelClosed already at time t, not delayed until the deadline; and
a reply arriving within the deadline returns it as Ok. -/
theorem call_error_priority {μ α : Type}
    (s : Mailbox μ) (msg : μ) (rx : ReplyOutcome α) (d t : Nat) (v : α) :
    (s.endpoint = .dropped → call s msg rx d = (.error .SendError, 0, s)) ∧
    (s.endpoint ≠ .dropped → t ≤ d →
      call s msg (.replyAt t v) d = (.ok v, t, { s with queue := s.queue ++ [msg] })) ∧
    (s.endpoint ≠ .dropped → t ≤ d →
      call s msg (.dropAt t : ReplyOutcome α) d =
        (.error .ChannelClosed, t, { s with queue := s.queue ++ [msg] })) ∧
    (s.endpoint ≠ .dropped → d < t →
      call s msg (.replyAt t v) d =
        (.error .Timeout, d, { s with queue := s.queue ++ [msg] })) ∧
    (s.endpoint ≠ .dropped → d < t →
      call s msg (.dropAt t : ReplyOutcome α) d =
        (.error .Timeout, d, { s with queue := s.queue ++ [msg] })) ∧
    (s.endpoint ≠ .dropped →
      call s msg (.never : ReplyOutcome α) d =
        (.error .Timeout, d, { s with queue := s.queue ++ [msg] })) ∧
    (callDefault s msg rx = call s msg rx 5000) := by
  rcases s with ⟨q, sa, ep⟩
  cases ep <;>
    simp_all [call, send, awaitReplyWithTimeout, callDefault, DEFAULT_CALL_TIMEOUT_MS,
      Nat.not_le_of_lt, Nat.not_le]

/-- Witness for C5 at concrete inputs: a live callee, the reply sender
dropped at time 3 under a 5000 ms deadline, yields ChannelClosed at time 3. -/
theorem call_error_priority_witness :
    ((⟨[], true, .inSlot⟩ : Mailbox Nat).endpoint ≠ .dropped) ∧ (3 ≤ 5000) ∧
    call (⟨[], true, .inSlot⟩ : Mailbox Nat) 1 (.dropAt 3 : ReplyOutcome Nat) 5000 =
      (.error .ChannelClosed, 3, ⟨[1], true, .inSlot⟩) :=
  ⟨by decide, by decide,
    (call_error_priority (⟨[], true, .inSlot⟩ : Mailbox Nat) 1 (.dropAt 3) 5000 3 0).2.2.1
      (by decide) (by decide)⟩

/-- C6 (code bug): at the failing input — a task still running when the
shutdown deadline elapses — shutdown drops the sender and returns
ShutdownError::Timeout, but abort is never called on the join handle: the
task is left running detached, contradicting the claim and the method's own
documentation that the task is forcibly aborted. -/
theorem shutdown_timeout_returns_without_abort :
    shutdown ⟨false, false⟩ .stillRunning = (.error .Timeout, ⟨true, false⟩) ∧
    (shutdown ⟨false, false⟩ .stillRunning).2.abortCalled = false ∧
    (shutdown ⟨false, false⟩ .stillRunning).2.senderDropped = true ∧
    (∀ r, shutdown ⟨false, false⟩ (.completed r) = (.ok r, ⟨true, false⟩)) ∧
    (shutdown ⟨false, false⟩ .failed = (.error .JoinError, ⟨true, false⟩)) :=
  ⟨rfl, rfl, rfl, fun _ => rfl, rfl⟩

/-- C7: recv returns Poisoned exactly when the slot is empty at the moment of
the call — the endpoint was never set or is held by a concurrent in-flight
receive — deterministically, leaving the mailbox state (and so the message
queue) completely unchanged. -/
theorem recv_poisoned_iff_slot_empty {α : Type} (s : Mailbox α) :
    (recv s = .err .Poisoned s ↔ s.endpoint ≠ .inSlot) ∧
    (∀ s₁, recv s = .err .Poisoned s₁ → s₁ = s ∧ s₁.queue = s.queue) := by
  rcases s with ⟨q, sa, ep⟩
  cases ep <;> cases q <;> cases sa <;>
    simp_all [recv, takeReceiver, receiverRecv, restoreReceiver]

/-- Witness for C7 at a concrete mailbox whose endpoint is held by a
concurrent receive: recv is Poisoned and consumes nothing. -/
theorem recv_poisoned_iff_slot_empty_witness :
    recv (⟨[3], true, .held⟩ : Mailbox Nat) = .err .Poisoned ⟨[3], true, .held⟩ ∧
    (⟨[3], true, .held⟩ : Mailbox Nat).endpoint ≠ .inSlot :=
  ⟨(recv_poisoned_iff_slot_empty (⟨[3], true, .held⟩ : Mailbox Nat)).1.mpr (by decide),
    by decide⟩

/-- C8: kill calls abort on the join handle and never suspends (its body has
no await); an aborted driver future executes no further steps, so whenever
the abort takes effect before the terminate-hook step has begun (at most the
bind, start, and reason-computation steps have run), the terminate hook is
never invoked. -/
theorem kill_never_invokes_terminate (h : HandleState) (k : Nat) (hk : k ≤ 3) :
    (killP h).suspends = false ∧
    (killP h).result = { h with abortCalled := true } ∧
    DriverStep.invokeTerminate ∉ stepsBeforeAbort k := by
  refine ⟨rfl, rfl, ?_⟩
  interval_cases k <;> decide

/-- Witness for C8: a task aborted while suspended in start (two driver steps
executed) never reaches the terminate hook. -/
theorem kill_never_invokes_terminate_witness :
    (2 ≤ 3) ∧ DriverStep.invokeTerminate ∉ stepsBeforeAbort 2 :=
  ⟨by decide, (kill_never_invokes_terminate ⟨false, false⟩ 2 (by decide)).2.2⟩

/-- C9: send never suspends and has exactly two outcomes: Ok, appending the
message to the queue, while the receive endpoint is alive; or
SendError::Disconnected carrying exactly the original message, with no state
change, once the endpoint has been dropped. The Full variant is never
produced. -/
theorem send_disconnected_or_ok {α : Type} (s : Mailbox α) (m : α) :
    ((sendP s m).suspends = false) ∧
    (s.endpoint ≠ .dropped → send s m = (.ok (), { s with queue := s.queue ++ [m] })) ∧
    (s.endpoint = .dropped → send s m = (.error (.Disconnected m), s)) ∧
    (∀ e s₁, send s m = (.error e, s₁) →
      e = .Disconnected m ∧ s₁ = s ∧ e.into_inner = m) := by
  rcases s with ⟨q, sa, ep⟩
  cases ep <;> simp_all [sendP, send, Proc.suspends, SendError.into_inner]

/-- Witness for C9 at a concrete dropped endpoint: the send fails with
Disconnected carrying the original message and changes nothing. -/
theorem send_disconnected_or_ok_witness :
    ((⟨[], false, .dropped⟩ : Mailbox Nat).endpoint = .dropped) ∧
    send (⟨[], false, .dropped⟩ : Mailbox Nat) 9 =
      (.error (.Disconnected 9), ⟨[], false, .dropped⟩) :=
  ⟨rfl, (send_disconnected_or_ok (⟨[], false, .dropped⟩ : Mailbox Nat) 9).2.2.1 rfl⟩

/-- C10: for any sequence of messages sent from one sender to a task's bound
mailbox, the successful recv results return exactly those messages in send
order — FIFO per sender, no loss, no duplication. -/
theorem fifo_per_sender {α : Type} (ms : List α) :
    drainN (sendAll (⟨[], true, .inSlot⟩ : Mailbox α) ms) ms.length = ms := by
  rw [sendAll_inSlot]
  simpa using drainN_inSlot ms true

end Notizia
